import Mathlib

/-!
Shallow embedding of the data-acquisition façade and view-state coordinator of
the SatellitePro dashboard (src/services/satelliteAPI.ts and
src/hooks/useSatelliteData.ts), together with theorems settling the frozen
claims about it.

Modelling conventions:
* JavaScript numbers are modelled as exact rationals (ℚ).  None of the claims
  depends on IEEE-754 rounding; all literals appearing in the source are short
  decimals that ℚ represents exactly.
* Ambient nondeterminism (Date.now(), Math.random(), the outcome of each HTTP
  request) is threaded explicitly through a FetchEnv record.  Math.random()
  draws are numbered in the temporal order in which the source performs them.
* The OpenStreetMap tile computation in generateHighQualityImagery uses
  floating-point log/tan/cos; its result (the two tile indices) enters the
  environment as an uninterpreted function of the coordinates.  No claim
  inspects the tile indices.
* Date.prototype.toISOString is modelled by an injective rendering of the
  millisecond timestamp; no claim inspects the textual format of a date, only
  its determinism in the timestamp.
* The façade's cache (a JS Map from string keys to arbitrary values) is
  modelled as a function String → Option CacheVal, where CacheVal covers the
  two shapes the façade stores: a single imagery record or a list of records.
-/

/-- Severity levels of an analysis finding ('low' | 'medium' | 'high'). -/
inductive Severity where
  | low
  | medium
  | high
deriving DecidableEq, Repr

/-- SatelliteImagery record from src/services/satelliteAPI.ts (lines 42–50).
The coordinates field stores the pair in the source's order: latitude first,
then longitude. -/
structure SatelliteImagery where
  id : String
  url : String
  date : String
  coordinates : ℚ × ℚ
  cloudCover : ℚ
  resolution : ℚ
  source : String
deriving DecidableEq, Repr

/-- AnalysisResult record from src/services/satelliteAPI.ts (lines 52–59). -/
structure AnalysisResult where
  type : String
  confidence : ℚ
  location : ℚ × ℚ
  severity : Severity
  description : String
  timestamp : String
deriving DecidableEq, Repr

/-- Values stored in the façade's cache: getNASAImagery / getMarsImagery /
getMoonImagery store a single record, the Sentinel-2 and MODIS entry points
store a list. -/
inductive CacheVal where
  | single : SatelliteImagery → CacheVal
  | multi : List SatelliteImagery → CacheVal
deriving DecidableEq, Repr

/-- State owned by the façade singleton: the cache Map. -/
structure ApiState where
  cache : String → Option CacheVal

/-- The empty cache (fresh singleton, or the state right after clearCache). -/
def ApiState.empty : ApiState := ⟨fun _ => none⟩

/-- Map.set on the modelled cache. -/
def cacheSet (c : String → Option CacheVal) (k : String) (v : CacheVal) :
    String → Option CacheVal :=
  fun k' => if k' = k then some v else c k'

/-- Renders a rational that is a short decimal fraction the way JS template
interpolation renders the corresponding number (e.g. 42.7 ↦ "42.7",
2847 ↦ "2847").  Values whose denominator is not a power of ten within 20
digits fall back to the raw rational rendering; no such value reaches this
function on the claims' inputs. -/
def jsNumToString (q : ℚ) : String :=
  if q.den = 1 then toString q.num
  else
    match (List.range 20).find? (fun k => 10 ^ (k + 1) % q.den = 0) with
    | some k =>
        let d := k + 1
        let m := q.num.natAbs * (10 ^ d / q.den)
        let sign := if q.num < 0 then "-" else ""
        let ip := m / 10 ^ d
        let fp := m % 10 ^ d
        let fpStr := toString fp
        let pad := String.mk (List.replicate (d - fpStr.length) '0')
        sign ++ toString ip ++ "." ++ pad ++ fpStr
    | none => toString q

/-- Date.prototype.toISOString, modelled as an injective rendering of the
millisecond timestamp (the textual ISO format is never inspected by a claim). -/
def jsISOString (ms : Int) : String := "date-ms:" ++ toString ms

/-- Response data read from a NASA imagery endpoint: the url and date fields
of the JSON body, each possibly absent. -/
structure NasaResp where
  dataUrl : Option String
  dataDate : Option String
deriving DecidableEq, Repr

/-- One Mars rover photo as read from the Mars photos API. -/
structure MarsPhoto where
  imgSrc : String
  earthDate : Option String
  roverName : Option String
deriving DecidableEq, Repr

/-- Response data read from a Mars endpoint: the photos array, possibly absent
(the InSight weather endpoint has no photos field). -/
structure MarsResp where
  photos : Option (List MarsPhoto)
deriving DecidableEq, Repr

/-- One lunar catalogue search result. -/
structure MoonResult where
  browseUrl : Option String
  imageUrl : String
  startTime : Option String
deriving DecidableEq, Repr

/-- Response data read from a lunar endpoint: the results array, possibly
absent. -/
structure MoonResp where
  results : Option (List MoonResult)
deriving DecidableEq, Repr

/-- Response data read from a Sentinel Hub endpoint: tiles?.[i]?.url collapsed
to a function from the tile index to the optional url. -/
structure SentResp where
  tiles : Nat → Option String

/-- Ambient environment of one façade call: the clock, the Math.random()
stream (indexed in draw order), the outcome of the i-th HTTP request issued to
each adapter's endpoint list (Except.error = the request threw or rejected),
and the floating-point OSM tile computation. -/
structure FetchEnv where
  now : Int
  rand : Nat → ℚ
  nasaResp : Nat → Except Unit NasaResp
  marsResp : Nat → Except Unit MarsResp
  moonResp : Nat → Except Unit MoonResp
  sentResp : Nat → Except Unit SentResp
  tileFn : ℚ → ℚ → Int × Int

/-- Result of one façade fetch operation: the value returned to the caller,
the post-call cache state, and the number of endpoint requests issued (0 on a
cache hit). -/
structure FetchResult where
  val : CacheVal
  st : ApiState
  attempts : Nat

/-- generateHighQualityImagery (satelliteAPI.ts lines 420–435): the synthetic
fallback record built from an OpenStreetMap tile.  Takes the index of the next
unconsumed Math.random() draw and returns the record together with the next
free index (the function draws exactly once, for cloudCover). -/
def generateHighQualityImagery (env : FetchEnv) (ri : Nat) (lat lon : ℚ)
    (source : String) : SatelliteImagery × Nat :=
  let t := env.tileFn lat lon
  ({ id := "hq_" ++ toString env.now
   , url := "https://tile.openstreetmap.org/10/" ++ toString t.1 ++ "/" ++
       toString t.2 ++ ".png"
   , date := jsISOString env.now
   , coordinates := (lat, lon)
   , cloudCover := env.rand ri * 20
   , resolution := 10
   , source := source ++ " (OSM Fallback)" }, ri + 1)

/-- Endpoint URL list tried by getNASAImagery, in priority order
(satelliteAPI.ts lines 83–92). -/
def nasaEndpoints (date : Option String) : List String :=
  [ "https://api.nasa.gov/planetary/earth/imagery"
  , "https://gibs.earthdata.nasa.gov/wmts/epsg4326/best/MODIS_Terra_CorrectedReflectance_TrueColor/default/"
      ++ date.getD "2023-01-01" ++ "/250m" ]

/-- Cache key of getNASAImagery: nasa_${lat}_${lon}_${date || 'latest'}. -/
def nasaKey (lat lon : ℚ) (date : Option String) : String :=
  "nasa_" ++ jsNumToString lat ++ "_" ++ jsNumToString lon ++ "_" ++
    date.getD "latest"

/-- Endpoint loop of getNASAImagery (lines 94–114): the first request that
does not throw wins unconditionally; its payload is forwarded even when the
url/date fields are absent.  Returns the winning record (if any) and the
number of requests issued. -/
def nasaLoop (env : FetchEnv) (lat lon : ℚ) (date : Option String) :
    List String → Nat → Option SatelliteImagery × Nat
  | [], k => (none, k)
  | u :: rest, k =>
    match env.nasaResp k with
    | .ok r =>
        (some
          { id := "nasa_" ++ toString env.now
          , url := r.dataUrl.getD u
          , date := r.dataDate.getD (date.getD (jsISOString env.now))
          , coordinates := (lat, lon)
          , cloudCover := env.rand 0 * 30
          , resolution := 30
          , source := "NASA Earth Data" }, k + 1)
    | .error _ => nasaLoop env lat lon date rest (k + 1)

/-- getNASAImagery (satelliteAPI.ts lines 75–118).  Cache hit returns the
stored value with no request issued; a win from the endpoint loop is cached;
the synthetic fallback on total failure is returned WITHOUT being cached
(line 117 returns directly, there is no cache.set on that path). -/
def getNASAImagery (st : ApiState) (lat lon : ℚ) (date : Option String)
    (env : FetchEnv) : FetchResult :=
  let key := nasaKey lat lon date
  match st.cache key with
  | some v => ⟨v, st, 0⟩
  | none =>
    match nasaLoop env lat lon date (nasaEndpoints date) 0 with
    | (some img, k) => ⟨.single img, ⟨cacheSet st.cache key (.single img)⟩, k⟩
    | (none, k) =>
        ⟨.single (generateHighQualityImagery env 0 lat lon "NASA Earth Data").1,
          st, k⟩

/-- Endpoint URL list tried by getMarsImagery, in priority order
(satelliteAPI.ts lines 307–311). -/
def marsEndpoints : List String :=
  [ "https://api.nasa.gov/mars-photos/api/v1/rovers/curiosity/photos?sol=1000&api_key=DEMO_KEY"
  , "https://api.nasa.gov/mars-photos/api/v1/rovers/perseverance/photos?sol=100&api_key=DEMO_KEY"
  , "https://api.nasa.gov/insight_weather?api_key=DEMO_KEY&feedtype=json&ver=1.0" ]

/-- Cache key of getMarsImagery: mars_${lat}_${lon}. -/
def marsKey (lat lon : ℚ) : String :=
  "mars_" ++ jsNumToString lat ++ "_" ++ jsNumToString lon

/-- Record built by getMarsImagery from the first photo of a winning
response (lines 318–327). -/
def marsPhotoRecord (env : FetchEnv) (lat lon : ℚ) (p : MarsPhoto) :
    SatelliteImagery :=
  { id := "mars_" ++ toString env.now
  , url := p.imgSrc
  , date := p.earthDate.getD (jsISOString env.now)
  , coordinates := (lat, lon)
  , cloudCover := 0
  , resolution := 25
  , source := "NASA " ++ p.roverName.getD "Mars" ++ " Rover" }

/-- Endpoint loop of getMarsImagery (lines 313–336): a response wins only if
it did not throw AND carries a non-empty photos array; a non-throwing response
whose photos array is absent or empty falls through to the next endpoint. -/
def marsLoop (env : FetchEnv) (lat lon : ℚ) :
    List String → Nat → Option SatelliteImagery × Nat
  | [], k => (none, k)
  | _ :: rest, k =>
    match env.marsResp k with
    | .ok r =>
        match r.photos with
        | some (p :: _) => (some (marsPhotoRecord env lat lon p), k + 1)
        | _ => marsLoop env lat lon rest (k + 1)
    | .error _ => marsLoop env lat lon rest (k + 1)

/-- Synthetic Mars fallback record (lines 339–347). -/
def marsFallbackRecord (env : FetchEnv) (lat lon : ℚ) : SatelliteImagery :=
  { id := "mars_" ++ toString env.now
  , url := "https://mars.nasa.gov/system/resources/detail_files/25042_PIA23499-web.jpg"
  , date := jsISOString env.now
  , coordinates := (lat, lon)
  , cloudCover := 0
  , resolution := 25
  , source := "NASA Mars Reconnaissance Orbiter" }

/-- getMarsImagery (satelliteAPI.ts lines 299–351).  Both the winning record
and the synthetic fallback are written to the cache before returning. -/
def getMarsImagery (st : ApiState) (lat lon : ℚ) (env : FetchEnv) :
    FetchResult :=
  let key := marsKey lat lon
  match st.cache key with
  | some v => ⟨v, st, 0⟩
  | none =>
    match marsLoop env lat lon marsEndpoints 0 with
    | (some img, k) => ⟨.single img, ⟨cacheSet st.cache key (.single img)⟩, k⟩
    | (none, k) =>
        let img := marsFallbackRecord env lat lon
        ⟨.single img, ⟨cacheSet st.cache key (.single img)⟩, k⟩

/-- Endpoint URL list tried by getMoonImagery (satelliteAPI.ts lines
362–365), parameterized by the coordinates interpolated into the URLs. -/
def moonEndpoints (lat lon : ℚ) : List String :=
  [ "https://trek.nasa.gov/moon/TrekWS/rest/cat/search?target=moon&lat=" ++
      jsNumToString lat ++ "&lon=" ++ jsNumToString lon
  , "https://ode.rsl.wustl.edu/moon/index.aspx/search?lat=" ++
      jsNumToString lat ++ "&lon=" ++ jsNumToString lon ]

/-- Cache key of getMoonImagery: moon_${lat}_${lon}. -/
def moonKey (lat lon : ℚ) : String :=
  "moon_" ++ jsNumToString lat ++ "_" ++ jsNumToString lon

/-- Record built by getMoonImagery from the first search result of a winning
response (lines 371–381). -/
def moonResultRecord (env : FetchEnv) (lat lon : ℚ) (x : MoonResult) :
    SatelliteImagery :=
  { id := "moon_" ++ toString env.now
  , url := x.browseUrl.getD x.imageUrl
  , date := x.startTime.getD (jsISOString env.now)
  , coordinates := (lat, lon)
  , cloudCover := 0
  , resolution := 50
  , source := "NASA Lunar Reconnaissance Orbiter" }

/-- Endpoint loop of getMoonImagery (lines 367–390): a response wins only if
it did not throw AND carries a results array with a first element.  (When the
results array is present but empty, the source dereferences results[0] and the
resulting TypeError is caught by the surrounding catch, so the loop moves on —
behaviourally identical to skipping the endpoint.) -/
def moonLoop (env : FetchEnv) (lat lon : ℚ) :
    List String → Nat → Option SatelliteImagery × Nat
  | [], k => (none, k)
  | _ :: rest, k =>
    match env.moonResp k with
    | .ok r =>
        match r.results with
        | some (x :: _) => (some (moonResultRecord env lat lon x), k + 1)
        | _ => moonLoop env lat lon rest (k + 1)
    | .error _ => moonLoop env lat lon rest (k + 1)

/-- Synthetic Moon fallback record (lines 393–401). -/
def moonFallbackRecord (env : FetchEnv) (lat lon : ℚ) : SatelliteImagery :=
  { id := "moon_" ++ toString env.now
  , url := "https://svs.gsfc.nasa.gov/vis/a000000/a004700/a004720/lroc_color_poles_1k.jpg"
  , date := jsISOString env.now
  , coordinates := (lat, lon)
  , cloudCover := 0
  , resolution := 50
  , source := "NASA Lunar Reconnaissance Orbiter" }

/-- getMoonImagery (satelliteAPI.ts lines 354–405).  Both the winning record
and the synthetic fallback are cached before returning. -/
def getMoonImagery (st : ApiState) (lat lon : ℚ) (env : FetchEnv) :
    FetchResult :=
  let key := moonKey lat lon
  match st.cache key with
  | some v => ⟨v, st, 0⟩
  | none =>
    match moonLoop env lat lon (moonEndpoints lat lon) 0 with
    | (some img, k) => ⟨.single img, ⟨cacheSet st.cache key (.single img)⟩, k⟩
    | (none, k) =>
        let img := moonFallbackRecord env lat lon
        ⟨.single img, ⟨cacheSet st.cache key (.single img)⟩, k⟩

/-- Cache key of getSentinel2Data: sentinel2_${lat}_${lon}. -/
def sentinel2Key (lat lon : ℚ) : String :=
  "sentinel2_" ++ jsNumToString lat ++ "_" ++ jsNumToString lon

/-- One record of the getSentinel2Data mock batch (satelliteAPI.ts lines
130–138); k is the index of the next unconsumed Math.random() draw (each
record draws twice for coordinates, then once for cloudCover). -/
def sentinel2Record (env : FetchEnv) (lat lon : ℚ) (i k : Nat) :
    SatelliteImagery × Nat :=
  ({ id := "sentinel2_" ++ toString env.now ++ "_" ++ toString i
   , url := "https://sentinel-cogs.s3.us-west-2.amazonaws.com/sentinel-s2-l2a-cogs/32/T/MJ/2023/1/S2A_32TMJ_20230101_0_L2A/TCI.tif"
   , date := jsISOString (env.now - i * 86400000)
   , coordinates := (lat + env.rand k * 0.01, lon + env.rand (k + 1) * 0.01)
   , cloudCover := env.rand (k + 2) * 50
   , resolution := 10
   , source := "Sentinel-2" }, k + 3)

/-- Builds the i-th..4th records of a batch, threading the draw index. -/
def buildBatch (mk : Nat → Nat → SatelliteImagery × Nat) :
    Nat → Nat → Nat → List SatelliteImagery
  | 0, _, _ => []
  | n + 1, i, k =>
    let r := mk i k
    r.1 :: buildBatch mk n (i + 1) r.2

/-- getSentinel2Data (satelliteAPI.ts lines 121–146): always takes the mock
branch (the try body cannot throw), building 5 records and caching the list. -/
def getSentinel2Data (st : ApiState) (lat lon : ℚ) (env : FetchEnv) :
    FetchResult :=
  let key := sentinel2Key lat lon
  match st.cache key with
  | some v => ⟨v, st, 0⟩
  | none =>
    let imgs := buildBatch (sentinel2Record env lat lon) 5 0 0
    ⟨.multi imgs, ⟨cacheSet st.cache key (.multi imgs)⟩, 0⟩

/-- Cache key of getMODISData: modis_${lat}_${lon}. -/
def modisKey (lat lon : ℚ) : String :=
  "modis_" ++ jsNumToString lat ++ "_" ++ jsNumToString lon

/-- One record of the getMODISData mock batch (satelliteAPI.ts lines 158–166);
each record draws once, for cloudCover. -/
def modisRecord (env : FetchEnv) (lat lon : ℚ) (i k : Nat) :
    SatelliteImagery × Nat :=
  ({ id := "modis_" ++ toString env.now ++ "_" ++ toString i
   , url := "https://modis.gsfc.nasa.gov/data/"
   , date := jsISOString (env.now - i * 86400000)
   , coordinates := (lat, lon)
   , cloudCover := env.rand k * 40
   , resolution := 250
   , source := "MODIS" }, k + 1)

/-- getMODISData (satelliteAPI.ts lines 149–174): always takes the mock
branch, building 3 records and caching the list. -/
def getMODISData (st : ApiState) (lat lon : ℚ) (env : FetchEnv) :
    FetchResult :=
  let key := modisKey lat lon
  match st.cache key with
  | some v => ⟨v, st, 0⟩
  | none =>
    let imgs := buildBatch (modisRecord env lat lon) 3 0 0
    ⟨.multi imgs, ⟨cacheSet st.cache key (.multi imgs)⟩, 0⟩

/-- Cache key of getEnhancedSentinel2: sentinel2_enhanced_${lat}_${lon}. -/
def sentinel2EnhancedKey (lat lon : ℚ) : String :=
  "sentinel2_enhanced_" ++ jsNumToString lat ++ "_" ++ jsNumToString lon

/-- One record of the getEnhancedSentinel2 success batch (satelliteAPI.ts
lines 456–464).  Draw order per record: if tiles?.[i]?.url is absent, one draw
inside the generateHighQualityImagery call whose url is taken; then two draws
for coordinates and one for cloudCover. -/
def sentEnhancedSuccessRecord (env : FetchEnv) (r : SentResp) (lat lon : ℚ)
    (i k : Nat) : SatelliteImagery × Nat :=
  let u :=
    match r.tiles i with
    | some u => (u, k)
    | none => ((generateHighQualityImagery env k lat lon "Sentinel-2").1.url, k + 1)
  ({ id := "sentinel2_real_" ++ toString env.now ++ "_" ++ toString i
   , url := u.1
   , date := jsISOString (env.now - i * 1382400000)
   , coordinates := (lat + env.rand u.2 * 0.01, lon + env.rand (u.2 + 1) * 0.01)
   , cloudCover := env.rand (u.2 + 2) * 30
   , resolution := 10
   , source := "ESA Sentinel-2 (Real)" }, u.2 + 3)

/-- One record of the getEnhancedSentinel2 fallback batch (satelliteAPI.ts
lines 477–485).  Draw order per record: two draws for the jittered arguments
of the inner generateHighQualityImagery call, one inside it, two for the
record coordinates, one for cloudCover. -/
def sentEnhancedFallbackRecord (env : FetchEnv) (lat lon : ℚ) (i k : Nat) :
    SatelliteImagery × Nat :=
  let a := lat + env.rand k * 0.01
  let b := lon + env.rand (k + 1) * 0.01
  ({ id := "sentinel2_enhanced_" ++ toString env.now ++ "_" ++ toString i
   , url := (generateHighQualityImagery env (k + 2) a b "Sentinel-2").1.url
   , date := jsISOString (env.now - i * 1382400000)
   , coordinates := (lat + env.rand (k + 3) * 0.01, lon + env.rand (k + 4) * 0.01)
   , cloudCover := env.rand (k + 5) * 50
   , resolution := 10
   , source := "Sentinel-2 Enhanced" }, k + 6)

/-- Endpoint loop of getEnhancedSentinel2 (lines 452–471): the first request
that does not throw wins and a 3-record batch is built from its payload. -/
def sentLoop (env : FetchEnv) (lat lon : ℚ) :
    Nat → Nat → Option (List SatelliteImagery) × Nat
  | 0, k => (none, k)
  | n + 1, k =>
    match env.sentResp k with
    | .ok r => (some (buildBatch (sentEnhancedSuccessRecord env r lat lon) 3 0 0), k + 1)
    | .error _ => sentLoop env lat lon n (k + 1)

/-- getEnhancedSentinel2 (satelliteAPI.ts lines 438–489): two endpoints are
tried; a non-throwing response wins and its 3-record batch is cached; if both
throw, a 5-record fallback batch is built and cached. -/
def getEnhancedSentinel2 (st : ApiState) (lat lon : ℚ) (env : FetchEnv) :
    FetchResult :=
  let key := sentinel2EnhancedKey lat lon
  match st.cache key with
  | some v => ⟨v, st, 0⟩
  | none =>
    match sentLoop env lat lon 2 0 with
    | (some imgs, k) => ⟨.multi imgs, ⟨cacheSet st.cache key (.multi imgs)⟩, k⟩
    | (none, k) =>
        let imgs := buildBatch (sentEnhancedFallbackRecord env lat lon) 5 0 0
        ⟨.multi imgs, ⟨cacheSet st.cache key (.multi imgs)⟩, k⟩

/-- runAnomalyDetection (satelliteAPI.ts lines 177–209): exactly three
findings with fixed types, confidences, severities and descriptions; the
locations add a fresh Math.random() scaled by 0.001 / 0.002 / 0.003 to each
coordinate (draws 0–5 in source order). -/
def runAnomalyDetection (lat lon : ℚ) (env : FetchEnv) : List AnalysisResult :=
  [ { type := "Thermal Anomaly"
    , confidence := 94
    , location := (lat + env.rand 0 * 0.001, lon + env.rand 1 * 0.001)
    , severity := .high
    , description := "Unusual temperature spike detected in industrial area"
    , timestamp := jsISOString env.now }
  , { type := "Structural Change"
    , confidence := 78
    , location := (lat + env.rand 2 * 0.002, lon + env.rand 3 * 0.002)
    , severity := .medium
    , description := "New construction or infrastructure change detected"
    , timestamp := jsISOString env.now }
  , { type := "Vegetation Loss"
    , confidence := 62
    , location := (lat + env.rand 4 * 0.003, lon + env.rand 5 * 0.003)
    , severity := .low
    , description := "Decrease in vegetation index observed"
    , timestamp := jsISOString env.now } ]

/-- Surface-temperature block of the thermal analysis literal. -/
structure SurfaceTemperature where
  current : ℚ
  average : ℚ
  change : ℚ
deriving DecidableEq, Repr

/-- Heat-island block of the thermal analysis literal. -/
structure HeatIslands where
  count : ℕ
  intensity : String
  locations : List (ℚ × ℚ)
deriving DecidableEq, Repr

/-- Thermal-gradient block of the thermal analysis literal. -/
structure ThermalGradient where
  value : ℚ
  unit : String
  trend : String
deriving DecidableEq, Repr

/-- Return shape of runThermalAnalysis. -/
structure ThermalResult where
  surfaceTemperature : SurfaceTemperature
  heatIslands : HeatIslands
  thermalGradient : ThermalGradient
deriving DecidableEq, Repr

/-- runThermalAnalysis (satelliteAPI.ts lines 212–235): a literal object;
the seven heat-island locations each draw twice (draws 0–13). -/
def runThermalAnalysis (lat lon : ℚ) (env : FetchEnv) : ThermalResult :=
  { surfaceTemperature := { current := 42.7, average := 38.2, change := 4.5 }
  , heatIslands :=
    { count := 7
    , intensity := "moderate"
    , locations := (List.range 7).map (fun j =>
        (lat + (env.rand (2 * j) - 0.5) * 0.01,
         lon + (env.rand (2 * j + 1) - 0.5) * 0.01)) }
  , thermalGradient := { value := 15.2, unit := "Â°C/km", trend := "decreasing" } }

/-- One spectral band reading of the spectral analysis literal. -/
structure BandReading where
  value : ℚ
  quality : String
  coverage : ℚ
deriving DecidableEq, Repr

/-- Vegetation/water indices of the spectral analysis literal. -/
structure SpectralIndices where
  ndvi : ℚ
  ndwi : ℚ
  evi : ℚ
  savi : ℚ
deriving DecidableEq, Repr

/-- Return shape of runSpectralAnalysis. -/
structure SpectralResult where
  nearInfrared : BandReading
  redEdge : BandReading
  blue : BandReading
  green : BandReading
  red : BandReading
  swir1 : BandReading
  swir2 : BandReading
  indices : SpectralIndices
deriving DecidableEq, Repr

/-- runSpectralAnalysis (satelliteAPI.ts lines 238–258): a literal object with
no randomness. -/
def runSpectralAnalysis (_lat _lon : ℚ) : SpectralResult :=
  { nearInfrared := { value := 0.847, quality := "excellent", coverage := 98.2 }
  , redEdge := { value := 0.723, quality := "good", coverage := 95.7 }
  , blue := { value := 0.412, quality := "fair", coverage := 89.3 }
  , green := { value := 0.634, quality := "good", coverage := 92.1 }
  , red := { value := 0.589, quality := "excellent", coverage := 97.8 }
  , swir1 := { value := 0.234, quality := "fair", coverage := 87.6 }
  , swir2 := { value := 0.156, quality := "good", coverage := 91.3 }
  , indices := { ndvi := 0.65, ndwi := 0.23, evi := 0.48, savi := 0.52 } }

/-- Count/change/accuracy triple used by the structural analysis literal. -/
structure StructuralBlock where
  amount : ℚ
  change : ℚ
  accuracy : ℚ
deriving DecidableEq, Repr

/-- Return shape of runStructuralAnalysis (the per-type breakdowns are carried
verbatim as association lists). -/
structure StructuralResult where
  buildings : StructuralBlock
  buildingTypes : List (String × ℚ)
  roads : StructuralBlock
  roadTypes : List (String × ℚ)
  waterBodies : StructuralBlock
  waterTypes : List (String × ℚ)
deriving DecidableEq, Repr

/-- runStructuralAnalysis (satelliteAPI.ts lines 261–296): a literal object
with no randomness. -/
def runStructuralAnalysis (_lat _lon : ℚ) : StructuralResult :=
  { buildings := { amount := 2847, change := 127, accuracy := 96.3 }
  , buildingTypes := [("residential", 1823), ("commercial", 687), ("industrial", 337)]
  , roads := { amount := 458.2, change := 12.8, accuracy := 92.1 }
  , roadTypes := [("primary", 45.3), ("secondary", 127.8), ("local", 285.1)]
  , waterBodies := { amount := 23.7, change := -0.8, accuracy := 94.7 }
  , waterTypes := [("rivers", 8.2), ("lakes", 12.1), ("reservoirs", 3.4)] }

/-- PlanetType from src/components/SatelliteApp.tsx line 13. -/
inductive Planet where
  | earth
  | mars
  | moon
  | universe
deriving DecidableEq, Repr

/-- AnalysisType from src/components/SatelliteApp.tsx line 14. -/
inductive AnalysisKind where
  | anomaly
  | thermal
  | spectral
  | structural
deriving DecidableEq, Repr

/-- Source dispatch of useSatelliteData.acquireData (useSatelliteData.ts lines
32–76): for earth the source hint selects the adapter, with usgs / maxar / an
unrecognized hint falling back to getNASAImagery and esa sharing
getEnhancedSentinel2; mars / moon / universe ignore the hint. -/
def fetchForSource (st : ApiState) (planet : Planet) (source : String)
    (lat lon : ℚ) (env : FetchEnv) : FetchResult :=
  match planet with
  | .earth =>
    if source = "nasa" then getNASAImagery st lat lon none env
    else if source = "sentinel2" then getEnhancedSentinel2 st lat lon env
    else if source = "modis" then getMODISData st lat lon env
    else if source = "esa" then getEnhancedSentinel2 st lat lon env
    else if source = "usgs" then getNASAImagery st lat lon none env
    else if source = "planet" then getSentinel2Data st lat lon env
    else if source = "maxar" then getNASAImagery st lat lon none env
    else getNASAImagery st lat lon none env
  | .mars => getMarsImagery st lat lon env
  | .moon => getMoonImagery st lat lon env
  | .universe => getNASAImagery st lat lon none env

/-- Observable state of the view-state coordinator (useSatelliteData.ts lines
17–20): current imagery list, current analysis results (null until an analysis
completes), loading flag, error message. -/
structure CoordState where
  imagery : List SatelliteImagery
  analysisResults : Option (List AnalysisResult)
  isLoading : Bool
  error : Option String

/-- Initial coordinator state. -/
def CoordState.initial : CoordState :=
  { imagery := [], analysisResults := none, isLoading := false, error := none }

/-- Combined state of coordinator and façade. -/
structure System where
  coord : CoordState
  api : ApiState

/-- Array.isArray(data) ? data : [data] (useSatelliteData.ts line 78). -/
def toImageryList : CacheVal → List SatelliteImagery
  | .single i => [i]
  | .multi l => l

/-- acquireData (useSatelliteData.ts lines 25–96) as one atomic step: sets the
loading flag and clears the error, dispatches to the façade, stores the result
as the imagery list, and finally clears the loading flag.  The dispatched
façade operations are total (they swallow every endpoint failure), so the
catch branch that would set an error message is unreachable and the net error
state is null.  The toast notification is UI plumbing outside the model.
Returns the new system state and the number of endpoint requests issued. -/
def acquireData (sys : System) (planet : Planet) (source : String)
    (lat lon : ℚ) (env : FetchEnv) : System × Nat :=
  let r := fetchForSource sys.api planet source lat lon env
  (⟨{ sys.coord with
      imagery := toImageryList r.val
    , error := none
    , isLoading := false }, r.st⟩, r.attempts)

/-- runAnalysis (useSatelliteData.ts lines 98–166) as one atomic step: clears
error and prior analysis results, runs the selected routine, and stores the
resulting AnalysisResult list; thermal / spectral / structural wrap their
metric object into a single templated record (lines 115–146). -/
def runAnalysisStep (sys : System) (kind : AnalysisKind) (lat lon : ℚ)
    (env : FetchEnv) : System :=
  let results : List AnalysisResult :=
    match kind with
    | .anomaly => runAnomalyDetection lat lon env
    | .thermal =>
        [ { type := "Thermal Analysis"
          , confidence := 95
          , location := (lat, lon)
          , severity := .medium
          , description := "Surface temperature: " ++
              jsNumToString (runThermalAnalysis lat lon env).surfaceTemperature.current
              ++ "°C"
          , timestamp := jsISOString env.now } ]
    | .spectral =>
        [ { type := "Spectral Analysis"
          , confidence := 92
          , location := (lat, lon)
          , severity := .low
          , description := "NDVI: " ++
              jsNumToString (runSpectralAnalysis lat lon).indices.ndvi
          , timestamp := jsISOString env.now } ]
    | .structural =>
        [ { type := "Structural Analysis"
          , confidence := 89
          , location := (lat, lon)
          , severity := .medium
          , description := "Buildings detected: " ++
              jsNumToString (runStructuralAnalysis lat lon).buildings.amount
          , timestamp := jsISOString env.now } ]
  ⟨{ sys.coord with
     analysisResults := some results
   , error := none
   , isLoading := false }, sys.api⟩

/-- Body-change effect (useSatelliteData.ts lines 197–201): the useEffect on
the planet prop clears imagery, analysis results and error; it does not touch
the façade singleton or its cache. -/
def bodyChange (sys : System) : System :=
  ⟨{ sys.coord with imagery := [], analysisResults := none, error := none },
    sys.api⟩

/-- clearCache (satelliteAPI.ts lines 545–547). -/
def clearCache (_st : ApiState) : ApiState := ApiState.empty

/-- Export format argument of exportData. -/
inductive ExportFormat where
  | geojson
  | csv
  | json
deriving DecidableEq, Repr

/-- Export input: the source's exportData takes either a single record or an
array of records (Array.isArray branches).  The claims exercise it on imagery
records. -/
inductive ExportInput where
  | one : SatelliteImagery → ExportInput
  | many : List SatelliteImagery → ExportInput
deriving DecidableEq, Repr

/-- One GeoJSON Feature as built by the export (satelliteAPI.ts lines
503–508): literal type tags, the record's coordinates pair forwarded verbatim
as geometry.coordinates, and the whole record as properties. -/
structure GeoFeature where
  featureType : String
  geometryType : String
  geometryCoordinates : ℚ × ℚ
  properties : SatelliteImagery
deriving DecidableEq, Repr

/-- The FeatureCollection wrapper (lines 500–517). -/
structure FeatureCollection where
  collectionType : String
  features : List GeoFeature
deriving DecidableEq, Repr

/-- Serialized payload of one export.  JSON.stringify is modelled structurally
(its indentation and quoting are not claim-relevant): the geojson branch keeps
the object tree, the csv branch produces the actual string, the json branch
carries the input as-is. -/
inductive ExportContent where
  | geo : FeatureCollection → ExportContent
  | text : String → ExportContent
  | raw : ExportInput → ExportContent
deriving DecidableEq, Repr

/-- The Blob handed back by exportData: payload plus media type. -/
structure ExportBlob where
  content : ExportContent
  mimeType : String
deriving DecidableEq, Repr

/-- Wraps one record as a Feature (lines 503–508 / 510–516).  The source
reads item.coordinates || [0, 0]; the coordinates field is always present on a
record, so the pair is forwarded verbatim — stored order, latitude first. -/
def toFeature (img : SatelliteImagery) : GeoFeature :=
  { featureType := "Feature"
  , geometryType := "Point"
  , geometryCoordinates := img.coordinates
  , properties := img }

/-- Object.keys of a SatelliteImagery record, in insertion order. -/
def imageryKeys : List String :=
  ["id", "url", "date", "coordinates", "cloudCover", "resolution", "source"]

/-- Object.values of a SatelliteImagery record rendered the way the CSV
branch's join(',') renders them (a JS array stringifies as its
comma-separated elements). -/
def csvValues (img : SatelliteImagery) : List String :=
  [ img.id, img.url, img.date
  , jsNumToString img.coordinates.1 ++ "," ++ jsNumToString img.coordinates.2
  , jsNumToString img.cloudCover
  , jsNumToString img.resolution
  , img.source ]

/-- exportData (satelliteAPI.ts lines 492–542).  The csv branch guards the
header row with data[0] || {} — an empty array yields an empty header and an
empty rows string, so the payload degenerates to a single newline instead of
throwing. -/
def exportData (format : ExportFormat) (data : ExportInput) : ExportBlob :=
  match format with
  | .geojson =>
    let feats :=
      match data with
      | .many l => l.map toFeature
      | .one i => [toFeature i]
    ⟨.geo ⟨"FeatureCollection", feats⟩, "application/geo+json"⟩
  | .csv =>
    match data with
    | .many l =>
      let headers :=
        String.intercalate "," (match l with | [] => [] | _ :: _ => imageryKeys)
      let rows :=
        String.intercalate "\n"
          (l.map (fun i => String.intercalate "," (csvValues i)))
      ⟨.text (headers ++ "\n" ++ rows), "text/csv"⟩
    | .one i =>
      ⟨.text (String.intercalate "," imageryKeys ++ "\n" ++
        String.intercalate "," (csvValues i)), "text/csv"⟩
  | .json => ⟨.raw data, "application/json"⟩

/-!
Claim theorems.  Helper definitions and lemmas shared by several claims come
first; each claim is then settled by one theorem (with a witness when the
theorem carries hypotheses) or refuted by a closed counterexample.
-/

/-- Interval of possible Math.random() results. -/
def inUnit (q : ℚ) : Prop := 0 ≤ q ∧ q < 1

/-- Property demanded of a fallback result: a single record whose coordinates
echo the input, whose resolution is positive and whose cloud cover lies in
[0, 100). -/
def echoesAndInRange (v : CacheVal) (lat lon : ℚ) : Prop :=
  match v with
  | .single i =>
      i.coordinates = (lat, lon) ∧ 0 < i.resolution ∧
        0 ≤ i.cloudCover ∧ i.cloudCover < 100
  | .multi _ => False

/-- Environment at clock value t in which every endpoint request of every
adapter throws, and every Math.random() draw yields 1/2. -/
def envAllFail (t : Int) : FetchEnv :=
  { now := t
  , rand := fun _ => 1/2
  , nasaResp := fun _ => .error ()
  , marsResp := fun _ => .error ()
  , moonResp := fun _ => .error ()
  , sentResp := fun _ => .error ()
  , tileFn := fun _ _ => (0, 0) }

/-- Environment in which every NASA endpoint answers with a semantically
empty payload (no url and no date field) and everything else throws. -/
def envNasaOk (t : Int) : FetchEnv :=
  { envAllFail t with nasaResp := fun _ => .ok ⟨none, none⟩ }

/-- C2: fallback under total failure.  When every configured endpoint of the
earth, mars and moon adapters throws and the cache misses, each getter still
returns a single fully-populated record whose coordinates echo the input,
whose resolution is positive and whose cloud cover lies in [0, 100).  (Full
population is enforced by the SatelliteImagery structure itself: every field
of the returned record is present by construction.) -/
theorem fallback_total_failure_returns_populated_record
    (st : ApiState) (lat lon : ℚ) (env : FetchEnv)
    (hn0 : env.nasaResp 0 = .error ()) (hn1 : env.nasaResp 1 = .error ())
    (hm0 : env.marsResp 0 = .error ()) (hm1 : env.marsResp 1 = .error ())
    (hm2 : env.marsResp 2 = .error ())
    (hl0 : env.moonResp 0 = .error ()) (hl1 : env.moonResp 1 = .error ())
    (hr : inUnit (env.rand 0))
    (hmissN : st.cache (nasaKey lat lon none) = none)
    (hmissM : st.cache (marsKey lat lon) = none)
    (hmissL : st.cache (moonKey lat lon) = none) :
    echoesAndInRange (getNASAImagery st lat lon none env).val lat lon ∧
    echoesAndInRange (getMarsImagery st lat lon env).val lat lon ∧
    echoesAndInRange (getMoonImagery st lat lon env).val lat lon := by
  obtain ⟨hr0, hr1⟩ := hr
  refine ⟨?_, ?_, ?_⟩
  · simp only [getNASAImagery, hmissN, nasaEndpoints, nasaLoop, hn0, hn1,
      generateHighQualityImagery, echoesAndInRange]
    refine ⟨trivial, by norm_num, by positivity, by nlinarith⟩
  · simp only [getMarsImagery, hmissM, marsEndpoints, marsLoop, hm0, hm1, hm2,
      marsFallbackRecord, echoesAndInRange]
    norm_num
  · simp only [getMoonImagery, hmissL, moonEndpoints, moonLoop, hl0, hl1,
      moonFallbackRecord, echoesAndInRange]
    norm_num

/-- Witness for C2 at the concrete input (1, 2) over the empty cache. -/
theorem fallback_total_failure_returns_populated_record_witness :
    (envAllFail 5).nasaResp 0 = .error () ∧
    (envAllFail 5).nasaResp 1 = .error () ∧
    (envAllFail 5).marsResp 0 = .error () ∧
    (envAllFail 5).marsResp 1 = .error () ∧
    (envAllFail 5).marsResp 2 = .error () ∧
    (envAllFail 5).moonResp 0 = .error () ∧
    (envAllFail 5).moonResp 1 = .error () ∧
    inUnit ((envAllFail 5).rand 0) ∧
    ApiState.empty.cache (nasaKey 1 2 none) = none ∧
    ApiState.empty.cache (marsKey 1 2) = none ∧
    ApiState.empty.cache (moonKey 1 2) = none ∧
    (echoesAndInRange (getNASAImagery ApiState.empty 1 2 none (envAllFail 5)).val 1 2 ∧
     echoesAndInRange (getMarsImagery ApiState.empty 1 2 (envAllFail 5)).val 1 2 ∧
     echoesAndInRange (getMoonImagery ApiState.empty 1 2 (envAllFail 5)).val 1 2) :=
  ⟨rfl, rfl, rfl, rfl, rfl, rfl, rfl, ⟨by norm_num [envAllFail], by norm_num [envAllFail]⟩,
   rfl, rfl, rfl,
   fallback_total_failure_returns_populated_record ApiState.empty 1 2
     (envAllFail 5) rfl rfl rfl rfl rfl rfl rfl
     ⟨by norm_num [envAllFail], by norm_num [envAllFail]⟩ rfl rfl rfl⟩

/-- C6: anomaly analysis output shape.  runAnomalyDetection returns exactly 3
records with severities [high, medium, low], confidences [94, 78, 62], the
fixed per-tier types and descriptions, and locations within ±0.001 / ±0.002 /
±0.003 degrees of the input respectively (the source adds a fresh
Math.random() draw scaled by the tier magnitude to each coordinate). -/
theorem anomaly_output_shape (lat lon : ℚ) (env : FetchEnv)
    (h0 : inUnit (env.rand 0)) (h1 : inUnit (env.rand 1))
    (h2 : inUnit (env.rand 2)) (h3 : inUnit (env.rand 3))
    (h4 : inUnit (env.rand 4)) (h5 : inUnit (env.rand 5)) :
    (runAnomalyDetection lat lon env).map
        (fun r => (r.type, r.confidence, r.severity, r.description)) =
      [ ("Thermal Anomaly", 94, Severity.high,
          "Unusual temperature spike detected in industrial area")
      , ("Structural Change", 78, Severity.medium,
          "New construction or infrastructure change detected")
      , ("Vegetation Loss", 62, Severity.low,
          "Decrease in vegetation index observed") ] ∧
    List.Forall₂ (fun (r : AnalysisResult) (b : ℚ) =>
        |r.location.1 - lat| ≤ b ∧ |r.location.2 - lon| ≤ b)
      (runAnomalyDetection lat lon env) [0.001, 0.002, 0.003] := by
  obtain ⟨a0, b0⟩ := h0; obtain ⟨a1, b1⟩ := h1; obtain ⟨a2, b2⟩ := h2
  obtain ⟨a3, b3⟩ := h3; obtain ⟨a4, b4⟩ := h4; obtain ⟨a5, b5⟩ := h5
  constructor
  · rfl
  · simp only [runAnomalyDetection]
    refine .cons ⟨?_, ?_⟩ (.cons ⟨?_, ?_⟩ (.cons ⟨?_, ?_⟩ .nil)) <;>
      simp only [add_sub_cancel_left] <;>
      rw [abs_of_nonneg (by positivity)] <;> nlinarith

/-- Witness for C6 at the concrete input (10, 20) with all draws 1/2. -/
theorem anomaly_output_shape_witness :
    inUnit ((envAllFail 5).rand 0) ∧ inUnit ((envAllFail 5).rand 1) ∧
    inUnit ((envAllFail 5).rand 2) ∧ inUnit ((envAllFail 5).rand 3) ∧
    inUnit ((envAllFail 5).rand 4) ∧ inUnit ((envAllFail 5).rand 5) ∧
    ((runAnomalyDetection 10 20 (envAllFail 5)).map
        (fun r => (r.type, r.confidence, r.severity, r.description)) =
      [ ("Thermal Anomaly", 94, Severity.high,
          "Unusual temperature spike detected in industrial area")
      , ("Structural Change", 78, Severity.medium,
          "New construction or infrastructure change detected")
      , ("Vegetation Loss", 62, Severity.low,
          "Decrease in vegetation index observed") ] ∧
     List.Forall₂ (fun (r : AnalysisResult) (b : ℚ) =>
        |r.location.1 - 10| ≤ b ∧ |r.location.2 - 20| ≤ b)
      (runAnomalyDetection 10 20 (envAllFail 5)) [0.001, 0.002, 0.003]) :=
  ⟨by norm_num [inUnit, envAllFail], by norm_num [inUnit, envAllFail],
   by norm_num [inUnit, envAllFail], by norm_num [inUnit, envAllFail],
   by norm_num [inUnit, envAllFail], by norm_num [inUnit, envAllFail],
   anomaly_output_shape 10 20 (envAllFail 5)
     (by norm_num [inUnit, envAllFail]) (by norm_num [inUnit, envAllFail])
     (by norm_num [inUnit, envAllFail]) (by norm_num [inUnit, envAllFail])
     (by norm_num [inUnit, envAllFail]) (by norm_num [inUnit, envAllFail])⟩

/-- Rendering lemma: the thermal metric literal prints as "42.7". -/
theorem jsNum_render_temp : jsNumToString (42.7 : ℚ) = "42.7" := by
  have h : (42.7 : ℚ) = mkRat 427 10 := by norm_num [Rat.mkRat_eq_div]
  rw [h]; decide

/-- Rendering lemma: the NDVI literal prints as "0.65". -/
theorem jsNum_render_ndvi : jsNumToString (0.65 : ℚ) = "0.65" := by
  have h : (0.65 : ℚ) = mkRat 13 20 := by norm_num [Rat.mkRat_eq_div]
  rw [h]; decide

/-- C7: thermal, spectral and structural analyses each yield exactly one
record, with confidence 95 / 92 / 89 and severity medium / low / medium
respectively, and a description rendered from a template embedding the
synthesized metric (surface temperature 42.7, NDVI 0.65, building count
2847). -/
theorem single_record_analysis_shape (sys : System) (lat lon : ℚ)
    (env : FetchEnv) :
    (runAnalysisStep sys .thermal lat lon env).coord.analysisResults =
      some [ { type := "Thermal Analysis", confidence := 95
             , location := (lat, lon), severity := .medium
             , description := "Surface temperature: 42.7°C"
             , timestamp := jsISOString env.now } ] ∧
    (runAnalysisStep sys .spectral lat lon env).coord.analysisResults =
      some [ { type := "Spectral Analysis", confidence := 92
             , location := (lat, lon), severity := .low
             , description := "NDVI: 0.65"
             , timestamp := jsISOString env.now } ] ∧
    (runAnalysisStep sys .structural lat lon env).coord.analysisResults =
      some [ { type := "Structural Analysis", confidence := 89
             , location := (lat, lon), severity := .medium
             , description := "Buildings detected: 2847"
             , timestamp := jsISOString env.now } ] := by
  refine ⟨?_, ?_, ?_⟩ <;>
    simp only [runAnalysisStep, runThermalAnalysis, runSpectralAnalysis,
      runStructuralAnalysis, jsNum_render_temp, jsNum_render_ndvi] <;> rfl

/-- C10: the CSV export is total, including on the empty record sequence.  The
header row is computed from the first record's keys guarded by an empty-object
default, so exporting an empty array yields an empty header line, a newline,
and an empty rows string — a payload of exactly "\n" with media type
text/csv — instead of failing. -/
theorem csv_export_total_on_empty (recs : List SatelliteImagery) :
    (exportData .csv (.many recs)).mimeType = "text/csv" ∧
    exportData .csv (.many []) = ⟨.text "\n", "text/csv"⟩ := by
  constructor
  · cases recs <;> rfl
  · rfl

/-- First record of the C4 failing input: latitude 10, longitude 20. -/
def c4rec1 : SatelliteImagery :=
  { id := "r1", url := "u1", date := "d1", coordinates := (10, 20)
  , cloudCover := 5, resolution := 30, source := "NASA Earth Data" }

/-- Second record of the C4 failing input: latitude 30, longitude 40. -/
def c4rec2 : SatelliteImagery :=
  { id := "r2", url := "u2", date := "d2", coordinates := (30, 40)
  , cloudCover := 6, resolution := 30, source := "NASA Earth Data" }

/-- C4: the GeoJSON export forwards each record's stored coordinates pair
verbatim, i.e. (latitude, longitude) — it does NOT swap to the GeoJSON
lon-then-lat axis order the claim (and RFC 7946, invoked by the emitted
application/geo+json media type) requires.  At the failing input below the
first feature's geometry carries (10, 20) = (lat, lon), whereas the claim
demands (20, 10) = (lon, lat); the two differ.  The collection does contain
exactly 2 Feature entries with Point geometry and the full record as
properties. -/
theorem geojson_axis_order_bug :
    exportData .geojson (.many [c4rec1, c4rec2]) =
      ⟨.geo ⟨"FeatureCollection",
        [ { featureType := "Feature", geometryType := "Point"
          , geometryCoordinates := (10, 20), properties := c4rec1 }
        , { featureType := "Feature", geometryType := "Point"
          , geometryCoordinates := (30, 40), properties := c4rec2 } ]⟩,
       "application/geo+json"⟩ ∧
    (((10 : ℚ), (20 : ℚ)) : ℚ × ℚ) ≠ ((20 : ℚ), (10 : ℚ)) := by
  constructor
  · rfl
  · decide

/-- Record ids carried in a façade value (the spec's idempotence check
compares ids across repeated calls). -/
def CacheVal.ids (v : CacheVal) : List String :=
  (toImageryList v).map (fun i => i.id)

/-- Helper: when the derived key is cached after a getNASAImagery call, a
repeated call with the same inputs returns the identical value, leaves the
state unchanged and issues no endpoint request. -/
theorem nasa_second_call_hit (st : ApiState) (lat lon : ℚ)
    (date : Option String) (env env' : FetchEnv)
    (h : ((getNASAImagery st lat lon date env).st.cache
      (nasaKey lat lon date)).isSome) :
    getNASAImagery (getNASAImagery st lat lon date env).st lat lon date env' =
      ⟨(getNASAImagery st lat lon date env).val,
       (getNASAImagery st lat lon date env).st, 0⟩ := by
  rcases hv : st.cache (nasaKey lat lon date) with _ | v
  · rcases hl : nasaLoop env lat lon date (nasaEndpoints date) 0 with ⟨_ | img, k⟩
    · exfalso
      simp only [getNASAImagery, hv, hl] at h
      simp at h
    · simp only [getNASAImagery, hv, hl, cacheSet]
      simp
  · simp only [getNASAImagery, hv]

/-- Helper: a repeated getMarsImagery call always hits the cache, because the
first call caches even its synthetic fallback. -/
theorem mars_second_call_hit (st : ApiState) (lat lon : ℚ)
    (env env' : FetchEnv) :
    getMarsImagery (getMarsImagery st lat lon env).st lat lon env' =
      ⟨(getMarsImagery st lat lon env).val,
       (getMarsImagery st lat lon env).st, 0⟩ := by
  rcases hv : st.cache (marsKey lat lon) with _ | v
  · rcases hl : marsLoop env lat lon marsEndpoints 0 with ⟨_ | img, k⟩ <;>
      · simp only [getMarsImagery, hv, hl, cacheSet]
        simp
  · simp only [getMarsImagery, hv]

/-- Helper: a repeated getMoonImagery call always hits the cache, because the
first call caches even its synthetic fallback. -/
theorem moon_second_call_hit (st : ApiState) (lat lon : ℚ)
    (env env' : FetchEnv) :
    getMoonImagery (getMoonImagery st lat lon env).st lat lon env' =
      ⟨(getMoonImagery st lat lon env).val,
       (getMoonImagery st lat lon env).st, 0⟩ := by
  rcases hv : st.cache (moonKey lat lon) with _ | v
  · rcases hl : moonLoop env lat lon (moonEndpoints lat lon) 0 with ⟨_ | img, k⟩ <;>
      · simp only [getMoonImagery, hv, hl, cacheSet]
        simp
  · simp only [getMoonImagery, hv]

/-- C1 (amended): cache-hit idempotence holds exactly when the first call left
the derived key cached — always for the mars and moon adapters (which cache
even their synthetic fallback), and for the earth adapter whenever it did not
take the synthesized-fallback path (which is returned without being cached).
In every such case the second call returns the bit-identical stored value
(same id), leaves the cache unchanged and issues no endpoint request. -/
theorem acquire_cache_hit_idempotent (st : ApiState) (lat lon : ℚ)
    (date : Option String) (env env' : FetchEnv)
    (h : ((getNASAImagery st lat lon date env).st.cache
      (nasaKey lat lon date)).isSome) :
    (getNASAImagery (getNASAImagery st lat lon date env).st lat lon date env' =
      ⟨(getNASAImagery st lat lon date env).val,
       (getNASAImagery st lat lon date env).st, 0⟩) ∧
    (getMarsImagery (getMarsImagery st lat lon env).st lat lon env' =
      ⟨(getMarsImagery st lat lon env).val,
       (getMarsImagery st lat lon env).st, 0⟩) ∧
    (getMoonImagery (getMoonImagery st lat lon env).st lat lon env' =
      ⟨(getMoonImagery st lat lon env).val,
       (getMoonImagery st lat lon env).st, 0⟩) :=
  ⟨nasa_second_call_hit st lat lon date env env' h,
   mars_second_call_hit st lat lon env env',
   moon_second_call_hit st lat lon env env'⟩

/-- Witness for C1 at the concrete input (1, 2): the first call wins at the
first NASA endpoint (empty payload, still accepted), so the key is cached and
the repeated call is an exact hit. -/
theorem acquire_cache_hit_idempotent_witness :
    ((getNASAImagery ApiState.empty 1 2 none (envNasaOk 5)).st.cache
      (nasaKey 1 2 none)).isSome ∧
    ((getNASAImagery (getNASAImagery ApiState.empty 1 2 none (envNasaOk 5)).st
        1 2 none (envAllFail 6) =
      ⟨(getNASAImagery ApiState.empty 1 2 none (envNasaOk 5)).val,
       (getNASAImagery ApiState.empty 1 2 none (envNasaOk 5)).st, 0⟩) ∧
     (getMarsImagery (getMarsImagery ApiState.empty 1 2 (envNasaOk 5)).st
        1 2 (envAllFail 6) =
      ⟨(getMarsImagery ApiState.empty 1 2 (envNasaOk 5)).val,
       (getMarsImagery ApiState.empty 1 2 (envNasaOk 5)).st, 0⟩) ∧
     (getMoonImagery (getMoonImagery ApiState.empty 1 2 (envNasaOk 5)).st
        1 2 (envAllFail 6) =
      ⟨(getMoonImagery ApiState.empty 1 2 (envNasaOk 5)).val,
       (getMoonImagery ApiState.empty 1 2 (envNasaOk 5)).st, 0⟩)) :=
  ⟨by decide,
   acquire_cache_hit_idempotent ApiState.empty 1 2 none (envNasaOk 5)
     (envAllFail 6) (by decide)⟩

/-- C1 counterexample: when every earth endpoint fails, the synthesized
fallback is returned uncached, so an identical second call repeats the
endpoint work (2 fresh requests) and mints a record with a different id —
the two calls' results are not bit-identical, refuting the claim for the
synthesized-fallback case. -/
theorem nasa_fallback_repeat_not_idempotent :
    ((getNASAImagery (getNASAImagery ApiState.empty 1 2 none (envAllFail 5)).st
        1 2 none (envAllFail 6)).val).ids ≠
      ((getNASAImagery ApiState.empty 1 2 none (envAllFail 5)).val).ids ∧
    (getNASAImagery (getNASAImagery ApiState.empty 1 2 none (envAllFail 5)).st
        1 2 none (envAllFail 6)).attempts = 2 := by
  constructor
  · decide
  · decide

/-- C5 (amended): on a cache miss the record won from an endpoint is written
into the cache under the derived (adapter id + raw latitude/longitude) key and
no other key changes; the mars adapter also caches its synthesized fallback
the same way.  The earth adapter's synthesized fallback, however, is NOT
written: on total endpoint failure the call leaves the cache exactly as it
found it, so afterwards the cache does not map the derived key to the returned
record. -/
theorem cache_write_side_effect_amended (st : ApiState) (lat lon : ℚ)
    (date : Option String) (env : FetchEnv)
    (hmissN : st.cache (nasaKey lat lon date) = none)
    (hmissM : st.cache (marsKey lat lon) = none) :
    (∀ img k, nasaLoop env lat lon date (nasaEndpoints date) 0 = (some img, k) →
       (getNASAImagery st lat lon date env).st.cache (nasaKey lat lon date) =
           some (getNASAImagery st lat lon date env).val ∧
       ∀ k', k' ≠ nasaKey lat lon date →
         (getNASAImagery st lat lon date env).st.cache k' = st.cache k') ∧
    (∀ k, nasaLoop env lat lon date (nasaEndpoints date) 0 = (none, k) →
       (getNASAImagery st lat lon date env).st = st) ∧
    ((getMarsImagery st lat lon env).st.cache (marsKey lat lon) =
        some (getMarsImagery st lat lon env).val ∧
     ∀ k', k' ≠ marsKey lat lon →
       (getMarsImagery st lat lon env).st.cache k' = st.cache k') := by
  refine ⟨?_, ?_, ?_⟩
  · intro img k hl
    constructor
    · simp only [getNASAImagery, hmissN, hl, cacheSet]
      simp
    · intro k' hk'
      simp only [getNASAImagery, hmissN, hl, cacheSet]
      simp [hk']
  · intro k hl
    simp only [getNASAImagery, hmissN, hl]
  · rcases hl : marsLoop env lat lon marsEndpoints 0 with ⟨_ | img, k⟩ <;>
      · constructor
        · simp only [getMarsImagery, hmissM, hl, cacheSet]
          simp
        · intro k' hk'
          simp only [getMarsImagery, hmissM, hl, cacheSet]
          simp [hk']

/-- Witness for C5 at the concrete input (1, 2) over the empty cache, with the
first NASA endpoint answering (so the endpoint-win conjunct fires). -/
theorem cache_write_side_effect_amended_witness :
    ApiState.empty.cache (nasaKey 1 2 none) = none ∧
    ApiState.empty.cache (marsKey 1 2) = none ∧
    ((∀ img k,
        nasaLoop (envNasaOk 5) 1 2 none (nasaEndpoints none) 0 = (some img, k) →
       (getNASAImagery ApiState.empty 1 2 none (envNasaOk 5)).st.cache
           (nasaKey 1 2 none) =
           some (getNASAImagery ApiState.empty 1 2 none (envNasaOk 5)).val ∧
       ∀ k', k' ≠ nasaKey 1 2 none →
         (getNASAImagery ApiState.empty 1 2 none (envNasaOk 5)).st.cache k' =
           ApiState.empty.cache k') ∧
     (∀ k, nasaLoop (envNasaOk 5) 1 2 none (nasaEndpoints none) 0 = (none, k) →
       (getNASAImagery ApiState.empty 1 2 none (envNasaOk 5)).st =
         ApiState.empty) ∧
     ((getMarsImagery ApiState.empty 1 2 (envNasaOk 5)).st.cache (marsKey 1 2) =
         some (getMarsImagery ApiState.empty 1 2 (envNasaOk 5)).val ∧
      ∀ k', k' ≠ marsKey 1 2 →
        (getMarsImagery ApiState.empty 1 2 (envNasaOk 5)).st.cache k' =
          ApiState.empty.cache k')) :=
  ⟨rfl, rfl,
   cache_write_side_effect_amended ApiState.empty 1 2 none (envNasaOk 5)
     rfl rfl⟩

/-- C5 counterexample: at the concrete input (1, 2) with every earth endpoint
failing, the call returns a synthesized record (after 2 endpoint requests)
but the cache still has no entry for the derived key — the claim's "the
returned record is written into the cache under the derived key" fails for the
earth adapter's fallback path. -/
theorem nasa_fallback_not_cached :
    (getNASAImagery ApiState.empty 1 2 none (envAllFail 5)).st.cache
        (nasaKey 1 2 none) = none ∧
    (getNASAImagery ApiState.empty 1 2 none (envAllFail 5)).attempts = 2 := by
  constructor
  · decide
  · decide

/-- C3 (amended): the acceptance rule is adapter-specific.  For the earth
(NASA) adapter the first endpoint whose request does not throw wins and its
payload is forwarded unconditionally, even when semantically empty (absent
url/date fields).  For the mars and moon adapters a non-throwing response is
accepted only when it carries a non-empty photos / results payload; a
semantically empty success is passed over exactly like a thrown error, moving
the algorithm to the next endpoint. -/
theorem endpoint_acceptance_amended (st : ApiState) (lat lon : ℚ)
    (date : Option String) (env : FetchEnv)
    (r r' : NasaResp) (m m' : MarsResp) (p : MarsPhoto) (ps : List MarsPhoto)
    (w w' : MoonResp) (x : MoonResult) (xs : List MoonResult)
    (hmissN : st.cache (nasaKey lat lon date) = none)
    (hmissM : st.cache (marsKey lat lon) = none)
    (hmissL : st.cache (moonKey lat lon) = none) :
    (env.nasaResp 0 = .ok r →
       (getNASAImagery st lat lon date env).val = .single
          { id := "nasa_" ++ toString env.now
          , url := r.dataUrl.getD "https://api.nasa.gov/planetary/earth/imagery"
          , date := r.dataDate.getD (date.getD (jsISOString env.now))
          , coordinates := (lat, lon)
          , cloudCover := env.rand 0 * 30
          , resolution := 30
          , source := "NASA Earth Data" } ∧
       (getNASAImagery st lat lon date env).attempts = 1) ∧
    (env.nasaResp 0 = .error () → env.nasaResp 1 = .ok r' →
       (getNASAImagery st lat lon date env).val = .single
          { id := "nasa_" ++ toString env.now
          , url := r'.dataUrl.getD
              ("https://gibs.earthdata.nasa.gov/wmts/epsg4326/best/MODIS_Terra_CorrectedReflectance_TrueColor/default/"
                ++ date.getD "2023-01-01" ++ "/250m")
          , date := r'.dataDate.getD (date.getD (jsISOString env.now))
          , coordinates := (lat, lon)
          , cloudCover := env.rand 0 * 30
          , resolution := 30
          , source := "NASA Earth Data" } ∧
       (getNASAImagery st lat lon date env).attempts = 2) ∧
    (env.marsResp 0 = .ok m → (m.photos = none ∨ m.photos = some []) →
     env.marsResp 1 = .ok m' → m'.photos = some (p :: ps) →
       (getMarsImagery st lat lon env).val =
          .single (marsPhotoRecord env lat lon p) ∧
       (getMarsImagery st lat lon env).attempts = 2) ∧
    (env.moonResp 0 = .ok w → (w.results = none ∨ w.results = some []) →
     env.moonResp 1 = .ok w' → w'.results = some (x :: xs) →
       (getMoonImagery st lat lon env).val =
          .single (moonResultRecord env lat lon x) ∧
       (getMoonImagery st lat lon env).attempts = 2) := by
  refine ⟨?_, ?_, ?_, ?_⟩
  · intro h0
    constructor <;>
      simp only [getNASAImagery, hmissN, nasaEndpoints, nasaLoop, h0]
  · intro h0 h1
    constructor <;>
      simp only [getNASAImagery, hmissN, nasaEndpoints, nasaLoop, h0, h1]
  · intro h0 hempty h1 hfull
    rcases hempty with he | he <;>
      · constructor <;>
          simp only [getMarsImagery, hmissM, marsEndpoints, marsLoop,
            h0, he, h1, hfull]
  · intro h0 hempty h1 hfull
    rcases hempty with he | he <;>
      · constructor <;>
          simp only [getMoonImagery, hmissL, moonEndpoints, moonLoop,
            h0, he, h1, hfull]

/-- Environment for the C3 witness: the NASA endpoints answer with an empty
payload; the first mars and moon endpoints answer with semantically empty
payloads while the second ones carry data; draws all 1/2. -/
def envC3 : FetchEnv :=
  { envAllFail 5 with
    nasaResp := fun _ => .ok ⟨none, none⟩
  , marsResp := fun k =>
      if k = 0 then .ok ⟨some []⟩
      else .ok ⟨some [{ imgSrc := "mars-u2", earthDate := none, roverName := none }]⟩
  , moonResp := fun k =>
      if k = 0 then .ok ⟨some []⟩
      else .ok ⟨some [{ browseUrl := none, imageUrl := "moon-u2", startTime := none }]⟩ }

/-- Witness for C3 (amended) at the concrete input (1, 2) over the empty
cache: the first earth endpoint wins with an empty payload, while the
empty-but-non-throwing first mars and moon endpoints are passed over in favour
of the second ones. -/
theorem endpoint_acceptance_amended_witness :
    ApiState.empty.cache (nasaKey 1 2 none) = none ∧
    ApiState.empty.cache (marsKey 1 2) = none ∧
    ApiState.empty.cache (moonKey 1 2) = none ∧
    ((envC3.nasaResp 0 = .ok ⟨none, none⟩ →
       (getNASAImagery ApiState.empty 1 2 none envC3).val = .single
          { id := "nasa_" ++ toString envC3.now
          , url := (Option.none).getD "https://api.nasa.gov/planetary/earth/imagery"
          , date := (Option.none).getD ((Option.none).getD (jsISOString envC3.now))
          , coordinates := (1, 2)
          , cloudCover := envC3.rand 0 * 30
          , resolution := 30
          , source := "NASA Earth Data" } ∧
       (getNASAImagery ApiState.empty 1 2 none envC3).attempts = 1) ∧
     (envC3.nasaResp 0 = .error () → envC3.nasaResp 1 = .ok ⟨none, none⟩ →
       (getNASAImagery ApiState.empty 1 2 none envC3).val = .single
          { id := "nasa_" ++ toString envC3.now
          , url := (Option.none).getD
              ("https://gibs.earthdata.nasa.gov/wmts/epsg4326/best/MODIS_Terra_CorrectedReflectance_TrueColor/default/"
                ++ (Option.none : Option String).getD "2023-01-01" ++ "/250m")
          , date := (Option.none).getD ((Option.none).getD (jsISOString envC3.now))
          , coordinates := (1, 2)
          , cloudCover := envC3.rand 0 * 30
          , resolution := 30
          , source := "NASA Earth Data" } ∧
       (getNASAImagery ApiState.empty 1 2 none envC3).attempts = 2) ∧
     (envC3.marsResp 0 = .ok ⟨some []⟩ →
      ((⟨some []⟩ : MarsResp).photos = none ∨
        (⟨some []⟩ : MarsResp).photos = some []) →
      envC3.marsResp 1 =
        .ok ⟨some [{ imgSrc := "mars-u2", earthDate := none, roverName := none }]⟩ →
      (⟨some [{ imgSrc := "mars-u2", earthDate := none, roverName := none }]⟩ :
         MarsResp).photos =
        some ({ imgSrc := "mars-u2", earthDate := none, roverName := none } :: []) →
       (getMarsImagery ApiState.empty 1 2 envC3).val =
          .single (marsPhotoRecord envC3 1 2
            { imgSrc := "mars-u2", earthDate := none, roverName := none }) ∧
       (getMarsImagery ApiState.empty 1 2 envC3).attempts = 2) ∧
     (envC3.moonResp 0 = .ok ⟨some []⟩ →
      ((⟨some []⟩ : MoonResp).results = none ∨
        (⟨some []⟩ : MoonResp).results = some []) →
      envC3.moonResp 1 =
        .ok ⟨some [{ browseUrl := none, imageUrl := "moon-u2", startTime := none }]⟩ →
      (⟨some [{ browseUrl := none, imageUrl := "moon-u2", startTime := none }]⟩ :
         MoonResp).results =
        some ({ browseUrl := none, imageUrl := "moon-u2", startTime := none } :: []) →
       (getMoonImagery ApiState.empty 1 2 envC3).val =
          .single (moonResultRecord envC3 1 2
            { browseUrl := none, imageUrl := "moon-u2", startTime := none }) ∧
       (getMoonImagery ApiState.empty 1 2 envC3).attempts = 2)) :=
  ⟨rfl, rfl, rfl,
   endpoint_acceptance_amended ApiState.empty 1 2 none envC3
     ⟨none, none⟩ ⟨none, none⟩ ⟨some []⟩
     ⟨some [{ imgSrc := "mars-u2", earthDate := none, roverName := none }]⟩
     { imgSrc := "mars-u2", earthDate := none, roverName := none } []
     ⟨some []⟩
     ⟨some [{ browseUrl := none, imageUrl := "moon-u2", startTime := none }]⟩
     { browseUrl := none, imageUrl := "moon-u2", startTime := none } []
     rfl rfl rfl⟩

/-- Environment for the C3 counterexample: the first mars endpoint answers
without throwing but with an empty photos array; the remaining endpoints
throw. -/
def envMarsEmptyOk : FetchEnv :=
  { envAllFail 7 with
    marsResp := fun k => if k = 0 then .ok ⟨some []⟩ else .error () }

/-- C3 counterexample: the first mars endpoint responds without a transport
error, yet its (semantically empty) payload is NOT forwarded — the algorithm
moves on, issues all 3 endpoint requests, and returns the synthetic fallback.
This refutes the claim that for every adapter the first non-throwing endpoint
wins and that only a thrown/rejected error moves the algorithm along. -/
theorem mars_empty_payload_skipped :
    envMarsEmptyOk.marsResp 0 = .ok ⟨some []⟩ ∧
    (getMarsImagery ApiState.empty 1 2 envMarsEmptyOk).attempts = 3 ∧
    (getMarsImagery ApiState.empty 1 2 envMarsEmptyOk).val =
      .single (marsFallbackRecord envMarsEmptyOk 1 2) := by
  refine ⟨rfl, by decide, ?_⟩
  rfl

/-- C8: when the active celestial body changes, the coordinator's useEffect
clears the displayed imagery, analysis results and error to their initial
empty values but leaves the façade's cache untouched; consequently a
subsequent acquire for the original body at the same coordinates (and, for
earth, the same source hint) still hits the cache: it issues no endpoint
request and redisplays the cached record. -/
theorem body_switch_preserves_cache (sys : System) (lat lon : ℚ)
    (env : FetchEnv) (v w : CacheVal)
    (hm : sys.api.cache (marsKey lat lon) = some v)
    (hn : sys.api.cache (nasaKey lat lon none) = some w) :
    (bodyChange sys).coord.imagery = [] ∧
    (bodyChange sys).coord.analysisResults = none ∧
    (bodyChange sys).coord.error = none ∧
    (bodyChange sys).api = sys.api ∧
    acquireData (bodyChange sys) .mars "nasa" lat lon env =
      (⟨{ imagery := toImageryList v, analysisResults := none
        , isLoading := false, error := none }, sys.api⟩, 0) ∧
    acquireData (bodyChange sys) .earth "nasa" lat lon env =
      (⟨{ imagery := toImageryList w, analysisResults := none
        , isLoading := false, error := none }, sys.api⟩, 0) := by
  refine ⟨rfl, rfl, rfl, rfl, ?_, ?_⟩
  · simp only [acquireData, bodyChange, fetchForSource, getMarsImagery, hm]
  · simp only [acquireData, bodyChange, fetchForSource, getNASAImagery, hn]
    simp

/-- System used to witness C8: both derived keys are already cached. -/
def sysC8 : System :=
  ⟨{ imagery := [c4rec1], analysisResults := some [], isLoading := false
   , error := some "stale" },
   ⟨fun k =>
      if k = marsKey 1 2 then some (.single (marsFallbackRecord (envAllFail 5) 1 2))
      else if k = nasaKey 1 2 none then some (.single c4rec1)
      else none⟩⟩

/-- Witness for C8 at the concrete input (1, 2) over a system whose cache
holds both keys and whose display state is non-empty before the switch. -/
theorem body_switch_preserves_cache_witness :
    sysC8.api.cache (marsKey 1 2) =
      some (.single (marsFallbackRecord (envAllFail 5) 1 2)) ∧
    sysC8.api.cache (nasaKey 1 2 none) = some (.single c4rec1) ∧
    ((bodyChange sysC8).coord.imagery = [] ∧
     (bodyChange sysC8).coord.analysisResults = none ∧
     (bodyChange sysC8).coord.error = none ∧
     (bodyChange sysC8).api = sysC8.api ∧
     acquireData (bodyChange sysC8) .mars "nasa" 1 2 (envAllFail 6) =
       (⟨{ imagery := toImageryList (.single (marsFallbackRecord (envAllFail 5) 1 2))
         , analysisResults := none, isLoading := false, error := none },
         sysC8.api⟩, 0) ∧
     acquireData (bodyChange sysC8) .earth "nasa" 1 2 (envAllFail 6) =
       (⟨{ imagery := toImageryList (.single c4rec1), analysisResults := none
         , isLoading := false, error := none }, sysC8.api⟩, 0)) :=
  ⟨by decide, by decide,
   body_switch_preserves_cache sysC8 1 2 (envAllFail 6)
     (.single (marsFallbackRecord (envAllFail 5) 1 2)) (.single c4rec1)
     (by decide) (by decide)⟩

/-- Helper: when the first NASA endpoint answers, the derived key is cached
after the call (whether the call was a hit or a miss-then-win). -/
theorem nasa_caches_on_ok0 (st : ApiState) (lat lon : ℚ)
    (date : Option String) (env : FetchEnv) (r : NasaResp)
    (hok : env.nasaResp 0 = .ok r) :
    ((getNASAImagery st lat lon date env).st.cache
      (nasaKey lat lon date)).isSome := by
  rcases hv : st.cache (nasaKey lat lon date) with _ | v
  · simp only [getNASAImagery, hv, nasaEndpoints, nasaLoop, hok, cacheSet]
    simp
  · simp only [getNASAImagery, hv]
    simp [hv]

/-- C9: source-hint aliasing.  The coordinator dispatches the earth hints
usgs, maxar, any unrecognized hint, and nasa to the identical operation
(getNASAImagery with no date), and esa to the same operation as sentinel2
(getEnhancedSentinel2).  The aliases therefore derive one cache key, so after
an acquire under usgs (here: one that wins at the first endpoint, or hits), a
nasa acquire at the same coordinates returns the very record cached by the
usgs call, issuing no endpoint request. -/
theorem source_hint_aliasing (st : ApiState) (lat lon : ℚ)
    (env env' : FetchEnv) (hint : String) (r : NasaResp)
    (h1 : hint ≠ "nasa") (h2 : hint ≠ "sentinel2") (h3 : hint ≠ "modis")
    (h4 : hint ≠ "esa") (h5 : hint ≠ "usgs") (h6 : hint ≠ "planet")
    (h7 : hint ≠ "maxar")
    (hok : env.nasaResp 0 = .ok r) :
    fetchForSource st .earth "usgs" lat lon env =
      getNASAImagery st lat lon none env ∧
    fetchForSource st .earth "maxar" lat lon env =
      getNASAImagery st lat lon none env ∧
    fetchForSource st .earth hint lat lon env =
      getNASAImagery st lat lon none env ∧
    fetchForSource st .earth "nasa" lat lon env =
      getNASAImagery st lat lon none env ∧
    fetchForSource st .earth "esa" lat lon env =
      getEnhancedSentinel2 st lat lon env ∧
    fetchForSource st .earth "sentinel2" lat lon env =
      getEnhancedSentinel2 st lat lon env ∧
    fetchForSource (fetchForSource st .earth "usgs" lat lon env).st .earth
        "nasa" lat lon env' =
      ⟨(fetchForSource st .earth "usgs" lat lon env).val,
       (fetchForSource st .earth "usgs" lat lon env).st, 0⟩ := by
  have husgs : fetchForSource st .earth "usgs" lat lon env =
      getNASAImagery st lat lon none env := rfl
  refine ⟨rfl, rfl, ?_, rfl, rfl, rfl, ?_⟩
  · simp [fetchForSource, h1, h2, h3, h4, h5, h6, h7]
  · rw [husgs]
    show fetchForSource _ .earth "nasa" lat lon env' = _
    have hnasa : ∀ st' : ApiState, fetchForSource st' .earth "nasa" lat lon env' =
        getNASAImagery st' lat lon none env' := fun _ => rfl
    rw [hnasa]
    exact nasa_second_call_hit st lat lon none env env'
      (nasa_caches_on_ok0 st lat lon none env r hok)

/-- Witness for C9 with the unrecognized hint "unknown" and a first NASA
endpoint that answers with an empty payload. -/
theorem source_hint_aliasing_witness :
    ("unknown" : String) ≠ "nasa" ∧ ("unknown" : String) ≠ "sentinel2" ∧
    ("unknown" : String) ≠ "modis" ∧ ("unknown" : String) ≠ "esa" ∧
    ("unknown" : String) ≠ "usgs" ∧ ("unknown" : String) ≠ "planet" ∧
    ("unknown" : String) ≠ "maxar" ∧
    (envNasaOk 5).nasaResp 0 = .ok ⟨none, none⟩ ∧
    (fetchForSource ApiState.empty .earth "usgs" 1 2 (envNasaOk 5) =
       getNASAImagery ApiState.empty 1 2 none (envNasaOk 5) ∧
     fetchForSource ApiState.empty .earth "maxar" 1 2 (envNasaOk 5) =
       getNASAImagery ApiState.empty 1 2 none (envNasaOk 5) ∧
     fetchForSource ApiState.empty .earth "unknown" 1 2 (envNasaOk 5) =
       getNASAImagery ApiState.empty 1 2 none (envNasaOk 5) ∧
     fetchForSource ApiState.empty .earth "nasa" 1 2 (envNasaOk 5) =
       getNASAImagery ApiState.empty 1 2 none (envNasaOk 5) ∧
     fetchForSource ApiState.empty .earth "esa" 1 2 (envNasaOk 5) =
       getEnhancedSentinel2 ApiState.empty 1 2 (envNasaOk 5) ∧
     fetchForSource ApiState.empty .earth "sentinel2" 1 2 (envNasaOk 5) =
       getEnhancedSentinel2 ApiState.empty 1 2 (envNasaOk 5) ∧
     fetchForSource (fetchForSource ApiState.empty .earth "usgs" 1 2
         (envNasaOk 5)).st .earth "nasa" 1 2 (envAllFail 6) =
       ⟨(fetchForSource ApiState.empty .earth "usgs" 1 2 (envNasaOk 5)).val,
        (fetchForSource ApiState.empty .earth "usgs" 1 2 (envNasaOk 5)).st, 0⟩) :=
  ⟨by decide, by decide, by decide, by decide, by decide, by decide, by decide,
   rfl,
   source_hint_aliasing ApiState.empty 1 2 (envNasaOk 5) (envAllFail 6)
     "unknown" ⟨none, none⟩ (by decide) (by decide) (by decide) (by decide)
     (by decide) (by decide) (by decide) rfl⟩
